import Mathlib

/-!
Verification of the `open-computer` conversational desktop-agent client.

This file gives a shallow embedding of the core of `src/index.ts`
(`ComputerUseAgent`: `initialize`, `takeScreenshot`, `executeToolCall`,
`chat`, `cleanup`) together with the scroll helper of
`src/desktop-controller.ts` (`DesktopController.scroll`), and proves the
behavioural properties stated in the specification of the repository.

Modelling conventions:
* JavaScript numbers appearing in tool parameters are modelled as
  rationals (`ℚ`); a missing (`undefined`) field is `Option.none`.
* `Math.round` is `jsRound` (floor of `q + 1/2`, JavaScript half-up
  rounding), returned as a rational so that "the sandbox receives an
  integer" is a real statement, not one true by type.
* Remote effects are recorded in an explicit event trace: sandbox
  operations, completion-provider calls (with the full request sent) and
  Action-Executor invocations.
* The completion provider is a parameter `provider : Request → List Block`
  giving, for each request, the content blocks of the model response; the
  agent code is deterministic given this oracle.
* Thrown exceptions are `Except.error`; the embedded sandbox operations
  themselves never fail, so the `try/catch` of `executeToolCall` that
  converts sandbox failures into structured error payloads has no
  reachable error branch in the model.
-/

/-- Role of a conversation entry or outbound message (`"user" | "assistant"`). -/
inductive Role where
  | user
  | assistant
deriving DecidableEq, Repr

/-- The tool-input fields that `executeToolCall` destructures from the
`Record<string, unknown>` it receives.  A `none` field models a missing
(`undefined`) property. -/
structure ToolInput where
  x : Option ℚ := none
  y : Option ℚ := none
  text : Option String := none
  key : Option String := none
  direction : Option String := none
  amount : Option ℚ := none
  app : Option String := none
  duration : Option ℚ := none
deriving DecidableEq, Repr

/-- A content block of a model response (`type: "text" | "tool_use"`). -/
inductive Block where
  | text (t : String)
  | toolUse (id : String) (name : String) (input : ToolInput)
deriving DecidableEq, Repr

/-- A content part of an outbound message to the completion provider:
text, base64 image, a forwarded tool-use block, or a tool result. -/
inductive MsgPart where
  | text (t : String)
  | image (data : String)
  | toolUse (id : String) (name : String) (input : ToolInput)
  | toolResult (toolUseId : String) (content : String)
deriving DecidableEq, Repr

/-- One role-tagged entry of the `messages` array sent to the provider. -/
structure Msg where
  role : Role
  content : List MsgPart
deriving DecidableEq, Repr

/-- A `client.messages.create` request: model id, token budget, system
string and the ordered message list. -/
structure Request where
  model : String
  maxTokens : ℕ
  system : String
  messages : List Msg
deriving DecidableEq, Repr

/-- Content of a conversation-history entry: `string | ContentBlock[]`. -/
inductive HContent where
  | str (s : String)
  | blocks (bs : List Block)
deriving DecidableEq, Repr

/-- One entry of `this.conversationHistory`. -/
structure HistEntry where
  role : Role
  content : HContent
deriving DecidableEq, Repr

/-- A remote call against the desktop sandbox.  Click coordinates are the
rational numbers actually passed (a `none` coordinate models `NaN` from
rounding a missing field). -/
inductive SandboxOp where
  | screenshot
  | click (x : Option ℚ) (y : Option ℚ)
  | write (text : String)
  | press (key : String)
  | launch (app : String)
  | kill
deriving DecidableEq, Repr

/-- An observable event of a run: a sandbox call, a completion-provider
call (carrying the request sent), or an Action-Executor invocation. -/
inductive Event where
  | sandbox (op : SandboxOp)
  | providerCall (req : Request)
  | executorCall (name : String) (input : ToolInput)
deriving DecidableEq, Repr

/-- A live desktop-sandbox handle: its id and the (base64) data every
screenshot of it returns in this model. -/
structure Handle where
  sandboxId : String
  screenshotData : String
deriving DecidableEq, Repr

/-- The mutable state of a `ComputerUseAgent` instance: the optional
sandbox handle and the conversation history. -/
structure Agent where
  desktop : Option Handle
  conversationHistory : List HistEntry
deriving DecidableEq, Repr

/-- A parsed tool call collected from a model response. -/
structure ToolCall where
  id : String
  name : String
  input : ToolInput
deriving DecidableEq, Repr

/-- The model identifier used by default (`OPENCODE_ZEN_MODEL` unset). -/
def MODEL : String := "minimax-m2.1-free"

/-- JavaScript `Math.round`: floor of `q + 1/2` (half rounds up), returned
as a rational because the sandbox API receives a JavaScript number. -/
def jsRound (q : ℚ) : ℚ := ((⌊q + 1/2⌋ : ℤ) : ℚ)

/-- Number of iterations of `for (let i = 0; i < amount; i++)` for a
JavaScript number `amount`: zero when `amount` is `undefined` (the
comparison `i < undefined` is false) or non-positive, `⌈amount⌉` otherwise. -/
def jsLoopCount : Option ℚ → ℕ
  | none => 0
  | some a => if a ≤ 0 then 0 else (⌈a⌉).toNat

/-- The message thrown by operations guarded on `this.desktop`. -/
def notInitializedMsg : String := "Desktop sandbox not initialized"

/-- `JSON.stringify({ success: true })`. -/
def jsonSuccess : String := "\x7b\"success\":true\x7d"

/-- `JSON.stringify({ error: msg })`. -/
def jsonError (msg : String) : String := "\x7b\"error\":\"" ++ msg ++ "\"\x7d"

/-- `JSON.stringify({ success: true, image_base64: img })`. -/
def jsonScreenshotResult (img : String) : String :=
  "\x7b\"success\":true,\"image_base64\":\"" ++ img ++ "\"\x7d"

/-- The payload string `executeToolCall` returns for the tool `name`,
run against the live handle `h` (the switch statement's return values). -/
def execResult (h : Handle) (name : String) (_input : ToolInput) : String :=
  if name = "screenshot" then jsonScreenshotResult h.screenshotData
  else if name = "click" then jsonSuccess
  else if name = "type" then jsonSuccess
  else if name = "key" then jsonSuccess
  else if name = "scroll" then jsonSuccess
  else if name = "launch_app" then jsonSuccess
  else if name = "wait" then jsonSuccess
  else jsonError ("Unknown tool: " ++ name)

/-- The sandbox calls `executeToolCall` performs for the tool `name`
(the switch statement's effects, in order).  The scroll case presses the
page key `amount` times with NO default: a missing `amount` yields zero
presses, exactly as `for (let i = 0; i < undefined; i++)` never runs. -/
def execOps (name : String) (input : ToolInput) : List SandboxOp :=
  if name = "screenshot" then [SandboxOp.screenshot]
  else if name = "click" then
    [SandboxOp.click (input.x.map jsRound) (input.y.map jsRound)]
  else if name = "type" then [SandboxOp.write (input.text.getD "undefined")]
  else if name = "key" then [SandboxOp.press (input.key.getD "undefined")]
  else if name = "scroll" then
    List.replicate (jsLoopCount input.amount)
      (SandboxOp.press (if input.direction = some "down" then "Page_Down" else "Page_Up"))
  else if name = "launch_app" then [SandboxOp.launch (input.app.getD "undefined")]
  else if name = "wait" then []
  else []

/-- `ComputerUseAgent.executeToolCall`: fails when no sandbox handle is
set, otherwise dispatches on the tool name, returning the payload string
and performing the listed sandbox calls.  The unknown-name default case
returns a structured error payload without throwing. -/
def executeToolCall (desktop : Option Handle) (name : String)
    (input : ToolInput) : Except String String × List SandboxOp :=
  match desktop with
  | none => (Except.error notInitializedMsg, [])
  | some h => (Except.ok (execResult h name input), execOps name input)

/-- `DesktopController.scroll` of `src/desktop-controller.ts`: presses the
page-direction key `amount` times (the TypeScript signature defaults
`amount` to `desktopControllerScrollDefault = 3`). -/
def desktopControllerScroll (direction : String) (amount : ℚ) : List SandboxOp :=
  List.replicate (jsLoopCount (some amount))
    (SandboxOp.press (if direction = "down" then "Page_Down" else "Page_Up"))

/-- The default value of the `amount` parameter of
`DesktopController.scroll` (`amount: number = 3`). -/
def desktopControllerScrollDefault : ℚ := 3

/-- `ComputerUseAgent.takeScreenshot`: fails when no handle is set,
otherwise performs one sandbox screenshot call and returns its base64
data. -/
def takeScreenshot (a : Agent) : Except String String × List Event :=
  match a.desktop with
  | none => (Except.error notInitializedMsg, [])
  | some h => (Except.ok h.screenshotData, [Event.sandbox SandboxOp.screenshot])

/-- The agent as constructed: no sandbox handle, empty history. -/
def initialAgent : Agent := ⟨none, []⟩

/-- `ComputerUseAgent.initialize`, with the sandbox created by the remote
service passed in: stores the new handle. -/
def initializeAgent (a : Agent) (h : Handle) : Agent := { a with desktop := some h }

/-- `ComputerUseAgent.cleanup`: kills the sandbox when a handle is set.
The source never clears `this.desktop`, so the returned agent state keeps
the handle. -/
def cleanupAgent (a : Agent) : Agent × List Event :=
  match a.desktop with
  | none => (a, [])
  | some _ => (a, [Event.sandbox SandboxOp.kill])

/-- The system string of the first `client.messages.create` call of `chat`. -/
def mainSystemPrompt : String :=
  "You are a computer use agent with the ability to control a desktop. You can interact with applications, navigate the screen, and perform tasks.\n\nAvailable tools:\n1. screenshot - Take a screenshot of the current desktop\n2. click - Click at coordinates (x, y)\n3. type - Type text into the currently focused element\n4. key - Press a keyboard key (e.g., \"Return\", \"Tab\", \"Escape\")\n5. scroll - Scroll in a direction (\"up\" or \"down\") for a certain amount\n6. launch_app - Launch an application (e.g., \"google-chrome\", \"code\", \"gedit\")\n7. wait - Wait for a specified duration in milliseconds\n\nWhen you need to interact with the computer:\n1. First take a screenshot to see the current state\n2. Identify what needs to be done\n3. Use the appropriate tools to accomplish the task\n4. Take another screenshot to verify the action\n5. Repeat until the task is complete\n\nBe methodical and describe what you\x27re doing at each step."

/-- The system string of the follow-up `client.messages.create` call. -/
def followUpSystemPrompt : String :=
  "You are a computer use agent. Continue working on the task based on the tool results."

/-- The fixed fallback answer substituted when the assistant text is empty. -/
def fallbackMessage : String := "Task completed. Ready for the next instruction."

/-- Conversion of a history content block into an outbound message part
(array content is forwarded as-is). -/
def blockToMsgPart : Block → MsgPart
  | Block.text t => MsgPart.text t
  | Block.toolUse id name input => MsgPart.toolUse id name input

/-- The `conversationHistory.map(...)` conversion used by both provider
calls: string content becomes a single text part, array content is
forwarded block by block. -/
def histEntryToMsg (e : HistEntry) : Msg :=
  { role := e.role,
    content :=
      match e.content with
      | HContent.str s => [MsgPart.text s]
      | HContent.blocks bs => bs.map blockToMsgPart }

/-- Concatenation of the text blocks of a response, in arrival order
(the first loop over `response.content`). -/
def textConcat (blocks : List Block) : String :=
  blocks.foldl (fun s b => match b with | Block.text t => s ++ t | _ => s) ""

/-- The follow-up loop over `followUpResponse.content`: each text block
is appended to the running answer prefixed by a newline
(`assistantMessage += "\n" + block.text`). -/
def followUpAppend (init : String) (blocks : List Block) : String :=
  blocks.foldl (fun s b => match b with | Block.text t => s ++ "\n" ++ t | _ => s) init

/-- Text contributed by the follow-up response alone. -/
def followUpTextConcat (blocks : List Block) : String := followUpAppend "" blocks

/-- The tool calls collected from a model response, in arrival order. -/
def toolCallsOf (blocks : List Block) : List ToolCall :=
  blocks.filterMap fun b =>
    match b with
    | Block.toolUse id name input => some ⟨id, name, input⟩
    | _ => none

/-- The sequential execution loop over the collected tool calls: returns
the `(tool_use_id, payload)` pairs in order and the events performed
(one executor invocation followed by its sandbox calls, per tool call). -/
def runToolCalls (h : Handle) : List ToolCall → List (String × String) × List Event
  | [] => ([], [])
  | tc :: rest =>
    let res := execResult h tc.name tc.input
    let ops := execOps tc.name tc.input
    let r := runToolCalls h rest
    ((tc.id, res) :: r.1,
     (Event.executorCall tc.name tc.input :: ops.map Event.sandbox) ++ r.2)

/-- The first outbound request of `chat`, built from the history with the
user turn already appended: the mapped history followed by a final
user-role entry holding the screenshot image and a text part.  The text
part compares the instruction with the content of the last history entry
(always the just-pushed instruction itself, hence the comparison always
succeeds and the text sent is empty). -/
def mkFirstRequest (hist1 : List HistEntry) (screenshotBase64 : String)
    (userMessage : String) : Request :=
  { model := MODEL, maxTokens := 4096, system := mainSystemPrompt,
    messages := hist1.map histEntryToMsg ++
      [{ role := Role.user,
         content := [MsgPart.image screenshotBase64,
           MsgPart.text
             (if (hist1.getLast?).map HistEntry.content = some (HContent.str userMessage)
              then "" else userMessage)] }] }

/-- The follow-up request of `chat`: the mapped history (now ending with
the assistant turn carrying the action requests) followed by one
user-role entry of tool results correlated by `tool_use_id`.  No image is
attached. -/
def mkFollowUpRequest (hist2 : List HistEntry)
    (results : List (String × String)) : Request :=
  { model := MODEL, maxTokens := 4096, system := followUpSystemPrompt,
    messages := hist2.map histEntryToMsg ++
      [{ role := Role.user,
         content := results.map fun r => MsgPart.toolResult r.1 r.2 }] }

/-- `ComputerUseAgent.chat`: appends the instruction as a user turn,
fails when no sandbox handle is set (the screenshot guard), otherwise
performs the screenshot, the first provider call, the sequential tool
executions, the optional follow-up provider call, the fallback
substitution, and the final assistant push.  Returns the answer, the
updated agent state and the event trace. -/
def chat (provider : Request → List Block) (a : Agent) (userMessage : String) :
    Except String String × Agent × List Event :=
  let hist1 := a.conversationHistory ++ [⟨Role.user, HContent.str userMessage⟩]
  match a.desktop with
  | none =>
    (Except.error notInitializedMsg, { a with conversationHistory := hist1 }, [])
  | some h =>
    let req1 := mkFirstRequest hist1 h.screenshotData userMessage
    let response := provider req1
    let assistantMessage := textConcat response
    let tcs := toolCallsOf response
    let evs0 : List Event := [Event.sandbox SandboxOp.screenshot, Event.providerCall req1]
    if tcs = [] then
      let finalMsg := if assistantMessage = "" then fallbackMessage else assistantMessage
      (Except.ok finalMsg,
       { a with conversationHistory :=
           hist1 ++ [⟨Role.assistant, HContent.str finalMsg⟩] },
       evs0)
    else
      let r := runToolCalls h tcs
      let hist2 := hist1 ++ [⟨Role.assistant, HContent.blocks response⟩]
      let req2 := mkFollowUpRequest hist2 r.1
      let followUp := provider req2
      let assistantMessage2 := followUpAppend assistantMessage followUp
      let finalMsg := if assistantMessage2 = "" then fallbackMessage else assistantMessage2
      (Except.ok finalMsg,
       { a with conversationHistory :=
           hist2 ++ [⟨Role.assistant, HContent.str finalMsg⟩] },
       evs0 ++ r.2 ++ [Event.providerCall req2])

/-- The first request `chat` sends for agent `a` (holding handle `h`) and
instruction `m`. -/
def chatFirstRequest (a : Agent) (h : Handle) (m : String) : Request :=
  mkFirstRequest (a.conversationHistory ++ [⟨Role.user, HContent.str m⟩])
    h.screenshotData m

/-- The follow-up request `chat` sends (relevant when the first response
contains at least one tool call). -/
def chatFollowUpRequest (provider : Request → List Block) (a : Agent)
    (h : Handle) (m : String) : Request :=
  let r1 := provider (chatFirstRequest a h m)
  mkFollowUpRequest
    (a.conversationHistory ++ [⟨Role.user, HContent.str m⟩,
       ⟨Role.assistant, HContent.blocks r1⟩])
    (runToolCalls h (toolCallsOf r1)).1

/-- Recognizer for Action-Executor invocation events. -/
def isExecutorCall : Event → Bool
  | Event.executorCall _ _ => true
  | _ => false

/-- The Action-Executor invocations of a trace, in order. -/
def executorTrace (evs : List Event) : List Event := evs.filter isExecutorCall

/-- The completion-provider requests of a trace, in order. -/
def providerRequests (evs : List Event) : List Request :=
  evs.filterMap fun e =>
    match e with
    | Event.providerCall r => some r
    | _ => none

-- Depth limit raised for kernel evaluation of concrete runs.
set_option maxRecDepth 8000

/-- Decidable equality of thrown-or-returned results, used to evaluate
concrete runs. -/
instance : DecidableEq (Except String String) := fun a b =>
  match a, b with
  | Except.error s, Except.error t =>
    if h : s = t then isTrue (by rw [h]) else isFalse (fun hh => by cases hh; exact h rfl)
  | Except.ok s, Except.ok t =>
    if h : s = t then isTrue (by rw [h]) else isFalse (fun hh => by cases hh; exact h rfl)
  | Except.error _, Except.ok _ => isFalse fun hh => Except.noConfusion hh
  | Except.ok _, Except.error _ => isFalse fun hh => Except.noConfusion hh

/-- The fallback substitution applied to the assembled assistant text
(`if (!assistantMessage) assistantMessage = ...`). -/
def finalOf (s : String) : String := if s = "" then fallbackMessage else s

/-- A concrete sandbox handle used to evaluate the theorems on runs. -/
def h0 : Handle := ⟨"sandbox-1", "IMG0"⟩

/-- A test provider that answers with plain text and no tool calls. -/
def providerNoTools : Request → List Block := fun _ => [Block.text "hello"]

/-- A test provider that requests one screenshot action on the first
request of a turn and answers the follow-up request with the text
"done" (requests are told apart by their system string). -/
def providerOneTool : Request → List Block := fun req =>
  if req.system = followUpSystemPrompt then [Block.text "done"]
  else [Block.toolUse "t1" "screenshot" {}]

/-- A test provider that returns an empty response to every request. -/
def providerSilent : Request → List Block := fun _ => []

lemma runToolCalls_fst (h : Handle) (tcs : List ToolCall) :
    (runToolCalls h tcs).1 =
      tcs.map fun tc => (tc.id, execResult h tc.name tc.input) := by
  induction tcs with
  | nil => rfl
  | cons tc rest ih => simp [runToolCalls, ih]

lemma executorTrace_sandbox_map (l : List SandboxOp) :
    executorTrace (l.map Event.sandbox) = [] := by
  simp [executorTrace, isExecutorCall]

lemma providerRequests_sandbox_map (l : List SandboxOp) :
    providerRequests (l.map Event.sandbox) = [] := by
  simp [providerRequests]

lemma executorTrace_append (l1 l2 : List Event) :
    executorTrace (l1 ++ l2) = executorTrace l1 ++ executorTrace l2 := by
  simp [executorTrace]

lemma providerRequests_append (l1 l2 : List Event) :
    providerRequests (l1 ++ l2) = providerRequests l1 ++ providerRequests l2 := by
  simp [providerRequests]

lemma executorTrace_runToolCalls (h : Handle) (tcs : List ToolCall) :
    executorTrace (runToolCalls h tcs).2 =
      tcs.map fun tc => Event.executorCall tc.name tc.input := by
  induction tcs with
  | nil => rfl
  | cons tc rest ih =>
    simp only [runToolCalls, List.cons_append, List.map_cons]
    rw [show (Event.executorCall tc.name tc.input ::
        ((execOps tc.name tc.input).map Event.sandbox ++ (runToolCalls h rest).2)) =
        [Event.executorCall tc.name tc.input] ++
          ((execOps tc.name tc.input).map Event.sandbox ++ (runToolCalls h rest).2) by simp]
    rw [executorTrace_append, executorTrace_append, executorTrace_sandbox_map, ih]
    simp [executorTrace, isExecutorCall]

lemma providerRequests_runToolCalls (h : Handle) (tcs : List ToolCall) :
    providerRequests (runToolCalls h tcs).2 = [] := by
  induction tcs with
  | nil => rfl
  | cons tc rest ih =>
    simp only [runToolCalls, List.cons_append]
    rw [show (Event.executorCall tc.name tc.input ::
        ((execOps tc.name tc.input).map Event.sandbox ++ (runToolCalls h rest).2)) =
        [Event.executorCall tc.name tc.input] ++
          ((execOps tc.name tc.input).map Event.sandbox ++ (runToolCalls h rest).2) by simp]
    rw [providerRequests_append, providerRequests_append, providerRequests_sandbox_map, ih]
    simp [providerRequests]

lemma chat_no_tools (p : Request → List Block) (h : Handle)
    (hist : List HistEntry) (m : String)
    (htc : toolCallsOf (p (chatFirstRequest ⟨some h, hist⟩ h m)) = []) :
    chat p ⟨some h, hist⟩ m =
      (Except.ok (finalOf (textConcat (p (chatFirstRequest ⟨some h, hist⟩ h m)))),
       ⟨some h,
        hist ++ [⟨Role.user, HContent.str m⟩,
          ⟨Role.assistant, HContent.str
            (finalOf (textConcat (p (chatFirstRequest ⟨some h, hist⟩ h m))))⟩]⟩,
       [Event.sandbox SandboxOp.screenshot,
        Event.providerCall (chatFirstRequest ⟨some h, hist⟩ h m)]) := by
  simp only [chatFirstRequest] at htc
  simp [chat, chatFirstRequest, finalOf, htc]

lemma chat_tools (p : Request → List Block) (h : Handle)
    (hist : List HistEntry) (m : String)
    (htc : toolCallsOf (p (chatFirstRequest ⟨some h, hist⟩ h m)) ≠ []) :
    chat p ⟨some h, hist⟩ m =
      (Except.ok (finalOf (followUpAppend
          (textConcat (p (chatFirstRequest ⟨some h, hist⟩ h m)))
          (p (chatFollowUpRequest p ⟨some h, hist⟩ h m)))),
       ⟨some h,
        hist ++ [⟨Role.user, HContent.str m⟩,
          ⟨Role.assistant, HContent.blocks (p (chatFirstRequest ⟨some h, hist⟩ h m))⟩,
          ⟨Role.assistant, HContent.str (finalOf (followUpAppend
            (textConcat (p (chatFirstRequest ⟨some h, hist⟩ h m)))
            (p (chatFollowUpRequest p ⟨some h, hist⟩ h m))))⟩]⟩,
       [Event.sandbox SandboxOp.screenshot,
        Event.providerCall (chatFirstRequest ⟨some h, hist⟩ h m)] ++
         (runToolCalls h (toolCallsOf (p (chatFirstRequest ⟨some h, hist⟩ h m)))).2 ++
         [Event.providerCall (chatFollowUpRequest p ⟨some h, hist⟩ h m)]) := by
  simp only [chatFirstRequest] at htc
  simp [chat, chatFirstRequest, chatFollowUpRequest, finalOf, htc,
    runToolCalls_fst]

lemma executorTrace_nil : executorTrace [] = [] := rfl

lemma providerRequests_nil : providerRequests [] = [] := rfl

lemma executorTrace_cons_sandbox (op : SandboxOp) (l : List Event) :
    executorTrace (Event.sandbox op :: l) = executorTrace l := by
  simp [executorTrace, isExecutorCall]

lemma executorTrace_cons_provider (r : Request) (l : List Event) :
    executorTrace (Event.providerCall r :: l) = executorTrace l := by
  simp [executorTrace, isExecutorCall]

lemma executorTrace_cons_exec (n : String) (i : ToolInput) (l : List Event) :
    executorTrace (Event.executorCall n i :: l) =
      Event.executorCall n i :: executorTrace l := by
  simp [executorTrace, isExecutorCall]

lemma providerRequests_cons_sandbox (op : SandboxOp) (l : List Event) :
    providerRequests (Event.sandbox op :: l) = providerRequests l := by
  simp [providerRequests]

lemma providerRequests_cons_provider (r : Request) (l : List Event) :
    providerRequests (Event.providerCall r :: l) = r :: providerRequests l := by
  simp [providerRequests]

lemma providerRequests_cons_exec (n : String) (i : ToolInput) (l : List Event) :
    providerRequests (Event.executorCall n i :: l) = providerRequests l := by
  simp [providerRequests]

lemma executorTrace_single_provider2 (r : Request) :
    executorTrace [Event.providerCall r] = [] := rfl

lemma providerRequests_single_provider2 (r : Request) :
    providerRequests [Event.providerCall r] = [r] := rfl

lemma getLast?_append_two {α : Type} (l : List α) (a b : α) :
    (l ++ [a, b]).getLast? = some b := by
  rw [show l ++ [a, b] = (l ++ [a]) ++ [b] by simp]
  exact List.getLast?_concat _

lemma getLast?_append_three {α : Type} (l : List α) (a b c : α) :
    (l ++ [a, b, c]).getLast? = some c := by
  rw [show l ++ [a, b, c] = (l ++ [a, b]) ++ [c] by simp]
  exact List.getLast?_concat _

/-- C1 counterexample: on a concrete run with one action request, the
history after the turn is `[user instruction, assistant action-request
turn, assistant text turn]` — its only user-role entry is the
instruction, so no synthetic user turn of Action Results is ever
appended to the conversation history, contrary to the claim. -/
theorem chat_appends_no_results_turn :
    (chat providerOneTool ⟨some h0, []⟩ "take a screenshot").2.1.conversationHistory =
      [⟨Role.user, HContent.str "take a screenshot"⟩,
       ⟨Role.assistant, HContent.blocks [Block.toolUse "t1" "screenshot" {}]⟩,
       ⟨Role.assistant, HContent.str "\ndone"⟩] ∧
    (∀ e ∈ (chat providerOneTool ⟨some h0, []⟩ "take a screenshot").2.1.conversationHistory,
      e.role = Role.user → e.content = HContent.str "take a screenshot") := by
  refine ⟨rfl, by decide⟩

/-- C1 (amended): for every chat invocation whose first model response
contains at least one action request, the assistant turn carrying the
action requests is appended to history before the follow-up request is
issued, and the synthetic user turn containing all Action Results
correlated by their identifiers appears only as the final message of the
follow-up request sent to the provider; it is never appended to the
conversation history, whose third new entry is instead a second
assistant turn holding the final text. -/
theorem chat_results_turn_in_followup_request_only
    (p : Request → List Block) (h : Handle) (hist : List HistEntry) (m : String)
    (htc : toolCallsOf (p (chatFirstRequest ⟨some h, hist⟩ h m)) ≠ []) :
    (chat p ⟨some h, hist⟩ m).2.1.conversationHistory =
      hist ++
        [⟨Role.user, HContent.str m⟩,
         ⟨Role.assistant, HContent.blocks (p (chatFirstRequest ⟨some h, hist⟩ h m))⟩,
         ⟨Role.assistant, HContent.str (finalOf (followUpAppend
            (textConcat (p (chatFirstRequest ⟨some h, hist⟩ h m)))
            (p (chatFollowUpRequest p ⟨some h, hist⟩ h m))))⟩] ∧
    providerRequests (chat p ⟨some h, hist⟩ m).2.2 =
      [chatFirstRequest ⟨some h, hist⟩ h m,
       chatFollowUpRequest p ⟨some h, hist⟩ h m] ∧
    (chatFollowUpRequest p ⟨some h, hist⟩ h m).messages =
      (hist ++
        ([{ role := Role.user, content := HContent.str m },
          { role := Role.assistant,
            content := HContent.blocks (p (chatFirstRequest ⟨some h, hist⟩ h m)) }] :
          List HistEntry)).map histEntryToMsg ++
      [{ role := Role.user,
         content := (toolCallsOf (p (chatFirstRequest ⟨some h, hist⟩ h m))).map
           fun tc => MsgPart.toolResult tc.id (execResult h tc.name tc.input) }] := by
  refine ⟨?_, ?_, ?_⟩
  · rw [chat_tools p h hist m htc]
  · rw [chat_tools p h hist m htc]
    simp [providerRequests_cons_sandbox, providerRequests_cons_provider,
      providerRequests_append, providerRequests_runToolCalls,
      providerRequests_single_provider2, providerRequests_nil]
  · simp [chatFollowUpRequest, mkFollowUpRequest, runToolCalls_fst]

/-- Witness for the C1 theorem: a concrete one-action run satisfying its
hypothesis, with the conclusion evaluated. -/
theorem chat_results_turn_in_followup_request_only_witness :
    toolCallsOf (providerOneTool (chatFirstRequest ⟨some h0, []⟩ h0 "go")) ≠ [] ∧
    ((chat providerOneTool ⟨some h0, []⟩ "go").2.1.conversationHistory =
      ([] : List HistEntry) ++
        [⟨Role.user, HContent.str "go"⟩,
         ⟨Role.assistant,
          HContent.blocks (providerOneTool (chatFirstRequest ⟨some h0, []⟩ h0 "go"))⟩,
         ⟨Role.assistant, HContent.str (finalOf (followUpAppend
            (textConcat (providerOneTool (chatFirstRequest ⟨some h0, []⟩ h0 "go")))
            (providerOneTool (chatFollowUpRequest providerOneTool ⟨some h0, []⟩ h0 "go"))))⟩] ∧
     providerRequests (chat providerOneTool ⟨some h0, []⟩ "go").2.2 =
      [chatFirstRequest ⟨some h0, []⟩ h0 "go",
       chatFollowUpRequest providerOneTool ⟨some h0, []⟩ h0 "go"] ∧
     (chatFollowUpRequest providerOneTool ⟨some h0, []⟩ h0 "go").messages =
      (([] : List HistEntry) ++
        ([{ role := Role.user, content := HContent.str "go" },
          { role := Role.assistant,
            content := HContent.blocks
              (providerOneTool (chatFirstRequest ⟨some h0, []⟩ h0 "go")) }] :
          List HistEntry)).map histEntryToMsg ++
      [{ role := Role.user,
         content := (toolCallsOf (providerOneTool (chatFirstRequest ⟨some h0, []⟩ h0 "go"))).map
           fun tc => MsgPart.toolResult tc.id (execResult h0 tc.name tc.input) }]) :=
  ⟨by decide, chat_results_turn_in_followup_request_only providerOneTool h0 [] "go" (by decide)⟩

/-- C2: for every chat invocation, the Action Executor is invoked
exactly once per action request of the FIRST response, in their listed
order (never for requests of the second response); the provider is
called exactly once when no actions were requested and exactly twice
otherwise, and the follow-up provider call is the last event of the turn
(hence made after all action executions). -/
theorem chat_executor_and_provider_discipline
    (p : Request → List Block) (h : Handle) (hist : List HistEntry) (m : String) :
    executorTrace (chat p ⟨some h, hist⟩ m).2.2 =
      (toolCallsOf (p (chatFirstRequest ⟨some h, hist⟩ h m))).map
        (fun tc => Event.executorCall tc.name tc.input) ∧
    providerRequests (chat p ⟨some h, hist⟩ m).2.2 =
      (if toolCallsOf (p (chatFirstRequest ⟨some h, hist⟩ h m)) = [] then
        [chatFirstRequest ⟨some h, hist⟩ h m]
      else
        [chatFirstRequest ⟨some h, hist⟩ h m,
         chatFollowUpRequest p ⟨some h, hist⟩ h m]) ∧
    (chat p ⟨some h, hist⟩ m).2.2.getLast? =
      some (Event.providerCall
        (if toolCallsOf (p (chatFirstRequest ⟨some h, hist⟩ h m)) = [] then
          chatFirstRequest ⟨some h, hist⟩ h m
        else chatFollowUpRequest p ⟨some h, hist⟩ h m)) := by
  by_cases htc : toolCallsOf (p (chatFirstRequest ⟨some h, hist⟩ h m)) = []
  · rw [chat_no_tools p h hist m htc]
    simp [htc, executorTrace_cons_sandbox, executorTrace_cons_provider,
      providerRequests_cons_sandbox, providerRequests_cons_provider,
      executorTrace_nil, providerRequests_nil]
  · rw [chat_tools p h hist m htc]
    refine ⟨?_, ?_, ?_⟩
    · simp only [List.cons_append, List.nil_append,
        executorTrace_cons_sandbox, executorTrace_cons_provider,
        executorTrace_append, executorTrace_runToolCalls,
        executorTrace_single_provider2]
      simp [executorTrace_nil]
    · simp only [List.cons_append, List.nil_append, htc, if_neg,
        providerRequests_cons_sandbox, providerRequests_cons_provider,
        providerRequests_append, providerRequests_runToolCalls,
        providerRequests_single_provider2]
      simp [providerRequests_nil]
    · rw [if_neg htc,
        show ([Event.sandbox SandboxOp.screenshot,
               Event.providerCall (chatFirstRequest ⟨some h, hist⟩ h m)] ++
              (runToolCalls h (toolCallsOf (p (chatFirstRequest ⟨some h, hist⟩ h m)))).2 ++
              [Event.providerCall (chatFollowUpRequest p ⟨some h, hist⟩ h m)]) =
            ([Event.sandbox SandboxOp.screenshot,
              Event.providerCall (chatFirstRequest ⟨some h, hist⟩ h m)] ++
             (runToolCalls h (toolCallsOf (p (chatFirstRequest ⟨some h, hist⟩ h m)))).2) ++
            [Event.providerCall (chatFollowUpRequest p ⟨some h, hist⟩ h m)] by simp]
      exact List.getLast?_concat _

/-- C3: for every successful chat invocation, the conversation history
grows by exactly 2 entries when the first model response contains no
action requests, and by exactly 3 entries when it contains at least
one. -/
theorem chat_history_growth
    (p : Request → List Block) (h : Handle) (hist : List HistEntry) (m : String) :
    (chat p ⟨some h, hist⟩ m).2.1.conversationHistory.length =
      hist.length +
        (if toolCallsOf (p (chatFirstRequest ⟨some h, hist⟩ h m)) = [] then 2 else 3) := by
  by_cases htc : toolCallsOf (p (chatFirstRequest ⟨some h, hist⟩ h m)) = []
  · rw [chat_no_tools p h hist m htc]; simp [htc]
  · rw [chat_tools p h hist m htc]; simp [htc]

/-- C4 counterexample: `cleanup` never clears the stored sandbox handle,
so a session-dependent operation invoked after initialize-then-cleanup
does not fail with the not-initialized error — it performs its sandbox
call, contrary to the claim. -/
theorem post_cleanup_contacts_sandbox :
    (cleanupAgent (initializeAgent initialAgent h0)).1.desktop = some h0 ∧
    takeScreenshot (cleanupAgent (initializeAgent initialAgent h0)).1 =
      (Except.ok "IMG0", [Event.sandbox SandboxOp.screenshot]) :=
  ⟨rfl, rfl⟩

/-- C4 (amended): every session-dependent operation (screenshot, tool
execution, chat turn) invoked before initialize fails with the
not-initialized error and performs no sandbox call; cleanup leaves the
stored handle untouched, so the "after cleanup" half of the original
claim does not hold. -/
theorem not_initialized_guard (hist : List HistEntry) (m n : String) (i : ToolInput)
    (p : Request → List Block) :
    takeScreenshot ⟨none, hist⟩ = (Except.error notInitializedMsg, []) ∧
    executeToolCall none n i = (Except.error notInitializedMsg, []) ∧
    (chat p ⟨none, hist⟩ m).1 = Except.error notInitializedMsg ∧
    (chat p ⟨none, hist⟩ m).2.2 = [] ∧
    ∀ a : Agent, (cleanupAgent a).1.desktop = a.desktop := by
  refine ⟨rfl, rfl, rfl, rfl, ?_⟩
  intro a
  obtain ⟨d, hist2⟩ := a
  cases d <;> rfl

/-- C5: dispatching a tool call with a name outside the recognized
vocabulary on an initialized agent never throws: it returns a structured
payload of the shape `\x7berror: "Unknown tool: <name>"\x7d` containing the
literal unknown name, and performs no sandbox call. -/
theorem executeToolCall_unknown_tool (h : Handle) (name : String) (input : ToolInput)
    (hname : name ∉ ["screenshot", "click", "type", "scroll", "key", "launch_app", "wait"]) :
    executeToolCall (some h) name input =
      (Except.ok (jsonError ("Unknown tool: " ++ name)), []) := by
  simp only [List.mem_cons, List.mem_singleton, not_or] at hname
  obtain ⟨h1, h2, h3, h4, h5, h6, h7⟩ := hname
  simp [executeToolCall, execResult, execOps, h1, h2, h3, h4, h5, h6, h7]

/-- Witness for the C5 theorem at the concrete unknown name "foo". -/
theorem executeToolCall_unknown_tool_witness :
    "foo" ∉ ["screenshot", "click", "type", "scroll", "key", "launch_app", "wait"] ∧
    executeToolCall (some h0) "foo" {} =
      (Except.ok (jsonError ("Unknown tool: " ++ "foo")), []) :=
  ⟨by decide, executeToolCall_unknown_tool h0 "foo" {} (by decide)⟩

/-- C6 counterexample: on a concrete run with the non-empty instruction
"hello", the final user-role entry of the first outbound request
contains the screenshot image and an EMPTY text part (the instruction
text only occurs in the preceding history-derived entry), contrary to
the claim that the final entry combines the image with the non-empty
instruction text. -/
theorem first_request_final_text_empty :
    providerRequests (chat providerNoTools ⟨some h0, []⟩ "hello").2.2 =
      [chatFirstRequest ⟨some h0, []⟩ h0 "hello"] ∧
    (chatFirstRequest ⟨some h0, []⟩ h0 "hello").messages =
      [{ role := Role.user, content := [MsgPart.text "hello"] },
       { role := Role.user, content := [MsgPart.image "IMG0", MsgPart.text ""] }] ∧
    "hello" ≠ "" := by
  refine ⟨rfl, rfl, by decide⟩

/-- C6 (amended): for every chat invocation, the first outbound request
is the first provider call of the turn, and its message list is the
mapped history (whose last entry is the just-appended instruction as a
user text entry) followed by a single user-role entry containing the
just-captured screenshot image and an always-empty text part: the
comparison of the instruction with the content of the last history entry
always succeeds, so the text combined with the image is `""`. -/
theorem first_request_shape
    (p : Request → List Block) (h : Handle) (hist : List HistEntry) (m : String) :
    (providerRequests (chat p ⟨some h, hist⟩ m).2.2).head? =
      some (chatFirstRequest ⟨some h, hist⟩ h m) ∧
    (chatFirstRequest ⟨some h, hist⟩ h m).messages =
      (hist ++ ([{ role := Role.user, content := HContent.str m }] : List HistEntry)).map
        histEntryToMsg ++
        [{ role := Role.user,
           content := [MsgPart.image h.screenshotData, MsgPart.text ""] }] := by
  constructor
  · by_cases htc : toolCallsOf (p (chatFirstRequest ⟨some h, hist⟩ h m)) = []
    · rw [chat_no_tools p h hist m htc]
      simp [providerRequests_cons_sandbox, providerRequests_cons_provider]
    · rw [chat_tools p h hist m htc]
      simp [providerRequests_cons_sandbox, providerRequests_cons_provider]
  · have hlast : (hist ++ [({ role := Role.user, content := HContent.str m } : HistEntry)]).getLast? =
        some { role := Role.user, content := HContent.str m } :=
      List.getLast?_concat _
    simp [chatFirstRequest, mkFirstRequest, hlast]

/-- C7 evaluation: a scroll request that supplies a direction but omits
`amount` makes `ComputerUseAgent.executeToolCall` press the
page-direction key ZERO times (the loop bound is `undefined`) while
still reporting success, although `DesktopController.scroll` defaults
the amount to 3 presses and an explicit `amount = 3` does press the key
3 times — the claimed default-3 behaviour is absent from the agent's
executor. -/
theorem scroll_missing_amount_presses_zero_keys :
    executeToolCall (some h0) "scroll" { direction := some "down" } =
      (Except.ok jsonSuccess, []) ∧
    desktopControllerScroll "down" desktopControllerScrollDefault =
      List.replicate 3 (SandboxOp.press "Page_Down") ∧
    executeToolCall (some h0) "scroll" { direction := some "down", amount := some 3 } =
      (Except.ok jsonSuccess, List.replicate 3 (SandboxOp.press "Page_Down")) := by
  refine ⟨rfl, ?_, ?_⟩ <;> rfl

/-- C8 counterexample: on a concrete run whose first response is exactly
one screenshot action with no text and whose follow-up response is the
text "done", chat returns `"\ndone"` — the follow-up text with a
newline prefixed — which differs from the follow-up text `"done"`,
contrary to the claim of exact equality (the 3-entry history growth part
does hold). -/
theorem chat_return_is_newline_prefixed :
    providerOneTool (chatFirstRequest ⟨some h0, []⟩ h0 "take a screenshot") =
      [Block.toolUse "t1" "screenshot" {}] ∧
    providerOneTool (chatFollowUpRequest providerOneTool ⟨some h0, []⟩ h0 "take a screenshot") =
      [Block.text "done"] ∧
    (chat providerOneTool ⟨some h0, []⟩ "take a screenshot").1 = Except.ok "\ndone" ∧
    "\ndone" ≠ "done" ∧
    (chat providerOneTool ⟨some h0, []⟩ "take a screenshot").2.1.conversationHistory.length = 3 := by
  refine ⟨rfl, rfl, rfl, by decide, rfl⟩

/-- C8 (amended): for a chat invocation whose first model response
contains exactly one screenshot action request and no text fragments,
the string returned by chat equals the follow-up response's text
fragments each prefixed with a newline (the fixed fallback string when
the follow-up contributes no text), and the conversation history gains
exactly 3 new entries. -/
theorem chat_screenshot_scenario
    (p : Request → List Block) (h : Handle) (hist : List HistEntry) (m : String)
    (tid : String) (inp : ToolInput)
    (hresp : p (chatFirstRequest ⟨some h, hist⟩ h m) = [Block.toolUse tid "screenshot" inp]) :
    (chat p ⟨some h, hist⟩ m).1 =
      Except.ok (finalOf (followUpTextConcat
        (p (chatFollowUpRequest p ⟨some h, hist⟩ h m)))) ∧
    (chat p ⟨some h, hist⟩ m).2.1.conversationHistory.length = hist.length + 3 := by
  have htc : toolCallsOf (p (chatFirstRequest ⟨some h, hist⟩ h m)) ≠ [] := by
    rw [hresp]; simp [toolCallsOf]
  rw [chat_tools p h hist m htc]
  constructor
  · rw [hresp]; rfl
  · simp

/-- Witness for the C8 theorem: a concrete run satisfying its
hypothesis; the returned string evaluates to `"\ndone"`. -/
theorem chat_screenshot_scenario_witness :
    providerOneTool (chatFirstRequest ⟨some h0, []⟩ h0 "shot") =
      [Block.toolUse "t1" "screenshot" {}] ∧
    ((chat providerOneTool ⟨some h0, []⟩ "shot").1 =
      Except.ok (finalOf (followUpTextConcat
        (providerOneTool (chatFollowUpRequest providerOneTool ⟨some h0, []⟩ h0 "shot")))) ∧
     (chat providerOneTool ⟨some h0, []⟩ "shot").2.1.conversationHistory.length =
       ([] : List HistEntry).length + 3) :=
  ⟨by decide, chat_screenshot_scenario providerOneTool h0 [] "shot" "t1" {} (by decide)⟩

/-- C9: for every chat invocation in which neither the first response
nor the follow-up response contributes any text, chat returns exactly
the fixed fallback string "Task completed. Ready for the next
instruction.", and that string is appended to history as the assistant
turn. -/
theorem chat_fallback_on_textless_responses
    (p : Request → List Block) (h : Handle) (hist : List HistEntry) (m : String)
    (h1 : textConcat (p (chatFirstRequest ⟨some h, hist⟩ h m)) = "")
    (h2 : followUpTextConcat (p (chatFollowUpRequest p ⟨some h, hist⟩ h m)) = "") :
    (chat p ⟨some h, hist⟩ m).1 = Except.ok fallbackMessage ∧
    (chat p ⟨some h, hist⟩ m).2.1.conversationHistory.getLast? =
      some ⟨Role.assistant, HContent.str fallbackMessage⟩ := by
  simp only [followUpTextConcat] at h2
  by_cases htc : toolCallsOf (p (chatFirstRequest ⟨some h, hist⟩ h m)) = []
  · rw [chat_no_tools p h hist m htc]
    refine ⟨?_, ?_⟩
    · rw [h1]; rfl
    · rw [h1, getLast?_append_two]; rfl
  · rw [chat_tools p h hist m htc]
    have am : followUpAppend
        (textConcat (p (chatFirstRequest ⟨some h, hist⟩ h m)))
        (p (chatFollowUpRequest p ⟨some h, hist⟩ h m)) = "" := by
      rw [h1]; exact h2
    refine ⟨?_, ?_⟩
    · rw [am]; rfl
    · rw [am, getLast?_append_three]; rfl

/-- Witness for the C9 theorem with a provider returning empty
responses. -/
theorem chat_fallback_on_textless_responses_witness :
    textConcat (providerSilent (chatFirstRequest ⟨some h0, []⟩ h0 "quiet")) = "" ∧
    followUpTextConcat
      (providerSilent (chatFollowUpRequest providerSilent ⟨some h0, []⟩ h0 "quiet")) = "" ∧
    ((chat providerSilent ⟨some h0, []⟩ "quiet").1 = Except.ok fallbackMessage ∧
     (chat providerSilent ⟨some h0, []⟩ "quiet").2.1.conversationHistory.getLast? =
       some ⟨Role.assistant, HContent.str fallbackMessage⟩) :=
  ⟨rfl, rfl, chat_fallback_on_textless_responses providerSilent h0 [] "quiet" rfl rfl⟩

/-- C10: for every click action request whose x and y parameters are
supplied, the executor succeeds and the sandbox receives exactly one
click whose coordinates are `jsRound` of the inputs — integer values
(each is an integer cast to the number type) within 1/2 of the supplied
fractional coordinates, i.e. the nearest-integer rounding. -/
theorem click_rounds_coordinates (h : Handle) (input : ToolInput) (x y : ℚ)
    (hx : input.x = some x) (hy : input.y = some y) :
    executeToolCall (some h) "click" input =
      (Except.ok jsonSuccess,
       [SandboxOp.click (some (jsRound x)) (some (jsRound y))]) ∧
    (∃ n : ℤ, jsRound x = (n : ℚ)) ∧ (∃ n : ℤ, jsRound y = (n : ℚ)) ∧
    ∀ q : ℚ, |q - jsRound q| ≤ 1 / 2 := by
  refine ⟨?_, ⟨⌊x + 1/2⌋, rfl⟩, ⟨⌊y + 1/2⌋, rfl⟩, ?_⟩
  · simp [executeToolCall, execResult, execOps, hx, hy]
  · intro q
    have h1 : ((⌊q + 1/2⌋ : ℤ) : ℚ) ≤ q + 1/2 := Int.floor_le _
    have h2 : q + 1/2 - 1 < ((⌊q + 1/2⌋ : ℤ) : ℚ) := Int.sub_one_lt_floor _
    rw [jsRound, abs_le]
    constructor <;> linarith

/-- Witness for the C10 theorem at the fractional coordinates
`(3/2, -7/4)`. -/
theorem click_rounds_coordinates_witness :
    ({ x := some (3/2), y := some (-7/4) } : ToolInput).x = some (3/2) ∧
    ({ x := some (3/2), y := some (-7/4) } : ToolInput).y = some (-7/4) ∧
    (executeToolCall (some h0) "click" { x := some (3/2), y := some (-7/4) } =
      (Except.ok jsonSuccess,
       [SandboxOp.click (some (jsRound (3/2))) (some (jsRound (-7/4)))]) ∧
     (∃ n : ℤ, jsRound (3/2) = (n : ℚ)) ∧ (∃ n : ℤ, jsRound (-7/4) = (n : ℚ)) ∧
     ∀ q : ℚ, |q - jsRound q| ≤ 1 / 2) :=
  ⟨rfl, rfl, click_rounds_coordinates h0 _ (3/2) (-7/4) rfl rfl⟩
